import Mathlib

/-! Formal model of the AR asset-placement application (src/src/main.js,
src/app.js, configuration in src/unnamed/part_000).  The JavaScript program is
single-threaded with cooperative (event-loop) concurrency: an async function
runs atomically up to its first await and resumes atomically when the awaited
promise settles.  We model the module-level mutable state of main.js as a
record `MainSt`, and every atomic segment of the event loop (the synchronous
prefix of `loadModelForCurrentMode`, the resumption after its await, UI
handlers, timer firings, loader callbacks) as a state transformer.
Interleavings are arbitrary sequences of events (`Ev`) folded by `run`. -/

namespace ARApp

/-- A position / orientation (quaternion) / scale triple, as passed to
`loadModelForCurrentMode(position, quaternion, scale)`.  Components are
rationals; every number appearing in the claims is exactly representable. -/
structure Pose where
  px : ℚ
  py : ℚ
  pz : ℚ
  qx : ℚ
  qy : ℚ
  qz : ℚ
  qw : ℚ
  sx : ℚ
  sy : ℚ
  sz : ℚ
deriving DecidableEq, Repr, Inhabited

/-- One in-flight `loadModelWithTimeout` request created by the non-preloaded
branch of `loadModelForCurrentMode`.  `mode` and `pose` are the values captured
by the closure; `settled` records that the promise has already been rejected by
the timeout (after which a late decode result calls resolve on an already
settled promise, a no-op). -/
structure PendAttach where
  plid : Nat
  mode : Nat
  pose : Pose
  settled : Bool
deriving DecidableEq, Repr

/-- The module-level mutable state of src/src/main.js that the claims are
about.  `scene` is the list of asset instances currently attached to the THREE
scene (instances are numbered by a freshness counter `nextInst`); `loading`
is the set of modes m with `loadingModels[m]` truthy; `preloaded` the set of
modes with a cached template in `preloadedModels`; `decodeLog` records one
entry (the requested mode) per `loader.load` submission, i.e. per decode call;
`pendingA` the in-flight attach loads and `pendingPre` the in-flight preloads
(id, mode).  `instPose` records the pose applied to each created instance.
`retPos`/`retQuat` stand for the reticle matrix, `camPos` for the camera
position, `statusMsg` for statusEl.textContent. -/
structure MainSt where
  currentMode : Nat
  currentModel : Option Nat
  scene : List Nat
  loading : List Nat
  preloaded : List Nat
  disposed : List Nat
  decodeLog : List Nat
  pendingA : List PendAttach
  pendingPre : List (Nat × Nat)
  instPose : List (Nat × Pose)
  instMode : List (Nat × Nat)
  nextInst : Nat
  nextPend : Nat
  isPresenting : Bool
  reticleVisible : Bool
  retPos : ℚ × ℚ × ℚ
  retQuat : ℚ × ℚ × ℚ × ℚ
  camPos : ℚ × ℚ × ℚ
  statusMsg : String
deriving DecidableEq, Repr

/-- CONFIG.MODEL.minDistance (src/unnamed/part_000, line 57). -/
def minDistance : ℚ := 1/2

/-- CONFIG.MODEL.maxDistance (src/unnamed/part_000, line 58). -/
def maxDistance : ℚ := 10

/-- CONFIG.MODEL.defaultScale component (src/unnamed/part_000, line 54). -/
def defaultScale : ℚ := 3/10

/-- Squared Euclidean distance.  The source compares
`position.distanceTo(camera.position)` against the nonnegative bounds; since
both sides are nonnegative this is equivalent to comparing squares, which
keeps the model inside ℚ. -/
def dist2 (a b : ℚ × ℚ × ℚ) : ℚ :=
  (a.1 - b.1)^2 + (a.2.1 - b.2.1)^2 + (a.2.2 - b.2.2)^2

/-- The pose recorded for instance c (reads position/quaternion/scale of the
attached THREE object). -/
def poseOf (st : MainSt) (c : Nat) : Pose :=
  ((st.instPose.find? (fun e => e.1 = c)).map (fun e => e.2)).getD default

/-- Lines 840-845 of main.js: if a model is attached, remove it from the scene
and dispose it (this runs before the new load is started). -/
def disposeCurrent (st : MainSt) : MainSt :=
  match st.currentModel with
  | some c =>
      { st with scene := st.scene.erase c,
                disposed := c :: st.disposed,
                currentModel := none }
  | none => st

/-- The synchronous prefix of `loadModelForCurrentMode` (main.js lines
829-903), which runs atomically up to the await of `loadModelWithTimeout`.
If `loadingModels[currentMode]` is set the call returns at line 837 having
mutated nothing.  Otherwise it detaches and disposes the previous model, sets
the loading flag, and then either (preloaded template available) clones the
template, applies the requested pose, attaches the clone and clears the flag
in the finally block - all synchronously, since that branch has no await - or
(no template) submits a decode via `loadModelWithTimeout` and suspends. -/
def attachStart (st : MainSt) (p : Pose) : MainSt :=
  let m := st.currentMode
  if m ∈ st.loading then st
  else
    let st1 := disposeCurrent st
    let st2 := { st1 with loading := m :: st1.loading,
                          statusMsg := "Cargando rutina..." }
    if m ∈ st2.preloaded then
      let i := st2.nextInst
      { st2 with nextInst := i + 1,
                 currentModel := some i,
                 scene := i :: st2.scene,
                 instPose := (i, p) :: st2.instPose,
                 instMode := (i, m) :: st2.instMode,
                 statusMsg := "Rutina activa.",
                 loading := st2.loading.erase m }
    else
      { st2 with decodeLog := m :: st2.decodeLog,
                 pendingA := ⟨st2.nextPend, m, p, false⟩ :: st2.pendingA,
                 nextPend := st2.nextPend + 1 }

/-- Look up an in-flight attach load by id. -/
def findPend (st : MainSt) (i : Nat) : Option PendAttach :=
  st.pendingA.find? (fun pl => pl.plid = i)

/-- Drop an in-flight attach load (its promise has settled and its
continuation has run). -/
def removePend (st : MainSt) (i : Nat) : MainSt :=
  { st with pendingA := st.pendingA.filter (fun pl => pl.plid ≠ i) }

/-- The loader success callback for attach load i followed by the resumption
of `loadModelForCurrentMode` after its await (main.js lines 865-888 and the
finally at line 901).  If the promise was already rejected by the timeout the
resolve is a no-op.  Otherwise the continuation assigns
`currentModel = gltf.scene` (a fresh instance; the variable is overwritten
without detaching whatever it may point to now), applies the captured pose,
adds the instance to the scene, and the finally block clears
`loadingModels[currentMode]` - reading the CURRENT value of the module
variable currentMode, not the mode captured at submission time. -/
def decodeOk (st : MainSt) (i : Nat) : MainSt :=
  match findPend st i with
  | none => st
  | some pl =>
    if pl.settled then removePend st i
    else
      let j := st.nextInst
      removePend
        { st with nextInst := j + 1,
                  currentModel := some j,
                  scene := j :: st.scene,
                  instPose := (j, pl.pose) :: st.instPose,
                  instMode := (j, pl.mode) :: st.instMode,
                  statusMsg := "Rutina activa.",
                  loading := st.loading.erase st.currentMode } i

/-- Both decode paths of `loadModelWithTimeout` errored before the timeout
(main.js lines 945-948): the promise rejects, the catch block of
`loadModelForCurrentMode` sets the error status and the finally block clears
`loadingModels[currentMode]` (again the CURRENT mode). -/
def decodeFail (st : MainSt) (i : Nat) : MainSt :=
  match findPend st i with
  | none => st
  | some pl =>
    if pl.settled then removePend st i
    else
      removePend
        { st with statusMsg := "Error cargando rutina.",
                  loading := st.loading.erase st.currentMode } i

/-- The timeout timer of `loadModelWithTimeout` fires before either decode
path settles the promise (main.js lines 908-910): the promise rejects, the
catch/finally of `loadModelForCurrentMode` run as for a decode failure, and
the pending load is marked settled so that a late decode result is ignored. -/
def timeoutFire (st : MainSt) (i : Nat) : MainSt :=
  match findPend st i with
  | none => st
  | some pl =>
    if pl.settled then st
    else
      { st with statusMsg := "Error cargando rutina.",
                loading := st.loading.erase st.currentMode,
                pendingA := st.pendingA.map
                  (fun q => if q.plid = i then { q with settled := true } else q) }

/-- The UI routine-button handler (main.js lines 724-747): set
`currentMode = mode`, update the status text, and call
`loadModelForCurrentMode` with a pose chosen by the handler. -/
def selectRoutine (st : MainSt) (m : Nat) (p : Pose) : MainSt :=
  attachStart { st with currentMode := m,
                        statusMsg := "Rutina seleccionada." } p

/-- main.js line 815: `currentMode = (currentMode % 3) + 1`. -/
def nextMode (m : Nat) : Nat := m % 3 + 1

/-- `cycleMode` (main.js lines 814-826): advance the mode cyclically and, if a
model is attached, re-request attachment at a clone of its current
position/quaternion/scale. -/
def cycleMode (st : MainSt) : MainSt :=
  let st1 := { st with currentMode := nextMode st.currentMode,
                       statusMsg := "Cambiando rutina..." }
  match st1.currentModel with
  | some c => attachStart st1 (poseOf st1 c)
  | none => st1

/-- The scale chosen in `onSelect` (main.js lines 792-798): the scale of the
current model if one exists, else CONFIG.MODEL.defaultScale. -/
def placementScale (st : MainSt) : ℚ × ℚ × ℚ :=
  match st.currentModel with
  | some c => let q := poseOf st c; (q.sx, q.sy, q.sz)
  | none => (defaultScale, defaultScale, defaultScale)

/-- The pose forwarded by the accepting branch of `onSelect`: position and
rotation extracted from the reticle matrix, scale from `placementScale`. -/
def placementPose (st : MainSt) : Pose :=
  ⟨st.retPos.1, st.retPos.2.1, st.retPos.2.2,
   st.retQuat.1, st.retQuat.2.1, st.retQuat.2.2.1, st.retQuat.2.2.2,
   (placementScale st).1, (placementScale st).2.1, (placementScale st).2.2⟩

/-- The select-trigger handler `onSelect` (main.js lines 760-811).  Outside an
active AR presentation the trigger is ignored.  With the reticle visible the
candidate distance is validated against CONFIG.MODEL before any mutation
(strict comparisons, modelled on squares); out of range: only the status text
changes.  In range: the placement is forwarded to `loadModelForCurrentMode`
and the status is set afterwards.  Reticle invisible with a model attached:
`cycleMode`.  Neither: only a hint message. -/
def onSelect (st : MainSt) : MainSt :=
  if !st.isPresenting then st
  else if st.reticleVisible then
    let d2 := dist2 st.retPos st.camPos
    if d2 < minDistance^2 then
      { st with statusMsg := "Modelo muy cerca. Aleja un poco la camara." }
    else if maxDistance^2 < d2 then
      { st with statusMsg := "Modelo muy lejos. Acerca un poco la camara." }
    else
      { attachStart st (placementPose st) with
          statusMsg := "Modelo colocado en AR. Toca para cambiar rutina." }
  else
    match st.currentModel with
    | some _ => cycleMode st
    | none => { st with statusMsg := "Apunta la camara a una superficie plana" }

/-- `preloadModel(url, mode)` (main.js lines 154-178): if
`preloadedModels[mode]` is already set, resolve immediately; otherwise submit
a decode via `loader.load`.  Note the guard checks only COMPLETED preloads -
there is no in-flight guard on this path. -/
def preloadStart (st : MainSt) (m : Nat) : MainSt :=
  if m ∈ st.preloaded then st
  else
    { st with decodeLog := m :: st.decodeLog,
              pendingPre := (st.nextPend, m) :: st.pendingPre,
              nextPend := st.nextPend + 1 }

/-- The success callback of a preload (main.js lines 163-167):
`preloadedModels[mode] = gltf`. -/
def preloadOk (st : MainSt) (i : Nat) : MainSt :=
  match st.pendingPre.find? (fun e => e.1 = i) with
  | none => st
  | some e =>
      { st with preloaded := e.2 :: st.preloaded,
                pendingPre := st.pendingPre.filter (fun q => q.1 ≠ i) }

/-- The atomic events of the event loop that touch the modelled state. -/
inductive Ev where
  | attach (p : Pose)
  | select (m : Nat) (p : Pose)
  | tap
  | decOk (i : Nat)
  | decFail (i : Nat)
  | timeout (i : Nat)
  | preload (m : Nat)
  | preOk (i : Nat)
deriving DecidableEq, Repr

/-- Dispatch one event. -/
def step (st : MainSt) : Ev → MainSt
  | .attach p => attachStart st p
  | .select m p => selectRoutine st m p
  | .tap => onSelect st
  | .decOk i => decodeOk st i
  | .decFail i => decodeFail st i
  | .timeout i => timeoutFire st i
  | .preload m => preloadStart st m
  | .preOk i => preloadOk st i

/-- Fold a sequence of events. -/
def run (st : MainSt) : List Ev → MainSt
  | [] => st
  | e :: es => run (step st e) es

/-- The freshly initialised module state (main.js lines 10-101), inside an AR
presentation with no reticle lock. -/
def mkSt : MainSt :=
  { currentMode := 1
    currentModel := none
    scene := []
    loading := []
    preloaded := []
    disposed := []
    decodeLog := []
    pendingA := []
    pendingPre := []
    instPose := []
    instMode := []
    nextInst := 0
    nextPend := 0
    isPresenting := true
    reticleVisible := false
    retPos := (0, 0, 0)
    retQuat := (0, 0, 0, 1)
    camPos := (0, 0, 0)
    statusMsg := "" }

/-- The attach loads whose promise has not settled yet. -/
def unsettled (st : MainSt) : List PendAttach :=
  st.pendingA.filter (fun pl => !pl.settled)

/-- The scene contents demanded by the CurrentAssetSlot reading of the state:
exactly the instance held by the slot. -/
def modelList : Option Nat → List Nat
  | some c => [c]
  | none => []

/-- Slot coherence invariant: the scene holds exactly the slot instance, and
at most one attach load is unresolved, during which the slot is empty. -/
def Inv (st : MainSt) : Prop :=
  st.scene = modelList st.currentModel ∧
  (unsettled st = [] ∨ ((unsettled st).length = 1 ∧ st.currentModel = none))

/-! Resource model for `disposeModel` (main.js lines 956-973) and the clone
taken of a preloaded template (line 860, `gltf.scene.clone()`).  A THREE
Object3D clone allocates a fresh node hierarchy but SHARES the geometry,
material and texture objects of the original; in this embedding a node is
identified by the resource ids it references, so cloning is the identity on
the data while disposal is modelled as the list of resources released. -/

/-- A material: its id and an optional texture map id (the `.map` slot). -/
structure Material where
  mid : Nat
  texMap : Option Nat
deriving DecidableEq, Repr

mutual

/-- A scene-graph node: a mesh (geometry id, materials, children) or a plain
group of children.  Children are a `NodeList` so that all recursions below
are structural. -/
inductive Node where
  | mesh (geom : Nat) (mats : List Material) (children : NodeList)
  | group (children : NodeList)

/-- A list of scene-graph nodes. -/
inductive NodeList where
  | nil
  | cons (n : Node) (ns : NodeList)

end

/-- The GPU-side resources releasable by `disposeModel`. -/
inductive Res where
  | geom (n : Nat)
  | mat (n : Nat)
  | tex (n : Nat)
deriving DecidableEq, Repr

/-- Disposal of one material (main.js lines 962-968): release its texture map
if present, then the material itself. -/
def disposeMat (m : Material) : List Res :=
  match m.texMap with
  | some t => [Res.tex t, Res.mat m.mid]
  | none => [Res.mat m.mid]

/-- Disposal of a material list (the code handles both a single material and
a material array with the same per-material effect). -/
def disposeMats : List Material → List Res
  | [] => []
  | m :: ms => disposeMat m ++ disposeMats ms

mutual

/-- `disposeModel` (main.js lines 956-973): traverse the hierarchy and for
every mesh release its geometry, then for every material its texture map and
the material.  The result is the list of released resources, in order. -/
def disposeNode : Node → List Res
  | .mesh g ms cs => Res.geom g :: (disposeMats ms ++ disposeList cs)
  | .group cs => disposeList cs

/-- Disposal of a child list. -/
def disposeList : NodeList → List Res
  | .nil => []
  | .cons n ns => disposeNode n ++ disposeList ns

end

mutual

/-- `Object3D.clone()` as used on the preloaded template (main.js line 860):
a fresh node hierarchy referencing the SAME geometry, material and texture
resources.  On this data representation (nodes carry only resource ids) the
clone is therefore equal to the original: nothing is deep-copied. -/
def cloneNode : Node → Node
  | .mesh g ms cs => .mesh g ms (cloneList cs)
  | .group cs => .group (cloneList cs)

/-- Clone of a child list. -/
def cloneList : NodeList → NodeList
  | .nil => .nil
  | .cons n ns => .cons (cloneNode n) (cloneList ns)

end

/-! Hit-test lifecycle model, for both implementations.  `HSt.requested` is
`hitTestSourceRequested`, `source` is `hitTestSource`, `pendingAcq` counts
acquisition flows that have been started but have not delivered a source yet,
and `reqCount` counts probe-source request submissions this session. -/

/-- Hit-test bookkeeping state shared by the two implementations. -/
structure HSt where
  requested : Bool
  source : Option Nat
  pendingAcq : Nat
  reqCount : Nat
  sessionActive : Bool
deriving DecidableEq, Repr

/-- One rendered AR frame in main.js (handleARFrame, lines 1002-1019 with
initializeHitTesting, lines 1022-1045): if `hitTestSourceRequested` is false,
`initializeHitTesting` is invoked, which submits a probe-source acquisition -
but sets `hitTestSourceRequested = true` only AFTER its awaits complete, so
the flag is still false on every frame rendered while the acquisition is
pending. -/
def mainFrame (h : HSt) : HSt :=
  if h.sessionActive && !h.requested then
    { h with reqCount := h.reqCount + 1, pendingAcq := h.pendingAcq + 1 }
  else h

/-- Completion of one pending acquisition in main.js (lines 1026-1039):
store the source and set the requested flag. -/
def mainAcqDone (h : HSt) (s : Nat) : HSt :=
  if 0 < h.pendingAcq then
    { h with pendingAcq := h.pendingAcq - 1, source := some s, requested := true }
  else h

/-- The session-end listener registered by initializeHitTesting (main.js lines
1032-1037): reset the requested flag and drop the source. -/
def mainSessionEnd (h : HSt) : HSt :=
  { h with requested := false, source := none, sessionActive := false }

/-- One rendered AR frame in app.js (render, lines 212-229): if
`hitTestSourceRequested` is false, submit the acquisition chain AND set
`hitTestSourceRequested = true` synchronously in the same handler, before the
frame callback returns. -/
def appFrame (h : HSt) : HSt :=
  if h.sessionActive && !h.requested then
    { h with reqCount := h.reqCount + 1, pendingAcq := h.pendingAcq + 1,
             requested := true }
  else h

/-- Completion of one pending acquisition in app.js (lines 217-221). -/
def appAcqDone (h : HSt) (s : Nat) : HSt :=
  if 0 < h.pendingAcq then
    { h with pendingAcq := h.pendingAcq - 1, source := some s }
  else h

/-- The session-end listener in app.js (lines 223-226). -/
def appSessionEnd (h : HSt) : HSt :=
  { h with requested := false, source := none, sessionActive := false }

/-- Iterated frames. -/
def appFrames : Nat → HSt → HSt
  | 0, h => h
  | n + 1, h => appFrames n (appFrame h)

/-- A fresh session with hit-testing not yet requested. -/
def h0 : HSt :=
  { requested := false, source := none, pendingAcq := 0, reqCount := 0,
    sessionActive := true }

/-- Events that start a new attach request (as opposed to resolving one). -/
def needsQuiet : Ev → Bool
  | .attach _ => true
  | .select _ _ => true
  | .tap => true
  | _ => false

/-- Sequential discipline: no new attach request is issued while an earlier
attach load is still unresolved. -/
def disciplined (st : MainSt) : List Ev → Bool
  | [] => true
  | e :: es => ((!needsQuiet e) || (unsettled st).isEmpty) && disciplined (step st e) es

/-- A concrete pose (origin, identity rotation, unit scale). -/
def poseA : Pose := ⟨0, 0, 0, 0, 0, 0, 1, 1, 1, 1⟩

/-- A second concrete pose. -/
def poseB : Pose := ⟨2, 0, 0, 0, 0, 0, 1, 1, 1, 1⟩

/-- A third concrete pose. -/
def poseC : Pose := ⟨0, 3, 0, 0, 0, 0, 1, 1, 1, 1⟩

/-- Initial state for the C1 counterexample: mode 2 preloaded, mode 1 not. -/
def stC1 : MainSt := { mkSt with preloaded := [2] }

/-- Initial state for the C2 counterexample: an instance (id 0) attached. -/
def stC2 : MainSt :=
  { mkSt with currentModel := some 0, scene := [0],
              instPose := [(0, poseB)], nextInst := 1 }

/-- Initial state for the C5 counterexample: mode 2 preloaded. -/
def stC5 : MainSt := { mkSt with preloaded := [2] }

/-- Initial state for the C6 counterexample: mode 3 preloaded. -/
def stC6 : MainSt := { mkSt with preloaded := [3] }

/-- The cached template used in the C4 counterexample: a single mesh with
geometry 0 and one material (id 0) carrying texture 0. -/
def tpl4 : Node := .mesh 0 [⟨0, some 0⟩] .nil

/-- State for the C10 witness: mode 1 is flagged as loading. -/
def stC10 : MainSt := { mkSt with loading := [1] }

/-- State for the C9 and C2 witnesses: reticle visible at distance 0.1 from
the camera (too close). -/
def w9a : MainSt := { mkSt with reticleVisible := true, retPos := (1/10, 0, 0) }

/-- State for the C9 witness: reticle visible at distance 5 (in range). -/
def w9b : MainSt := { mkSt with reticleVisible := true, retPos := (5, 0, 0) }

/-- State for the C2 witness: reticle visible at distance 11 from the camera
(too far). -/
def w9c : MainSt := { mkSt with reticleVisible := true, retPos := (11, 0, 0) }

/-- State for the C6 witness: one unresolved attach load with id 0. -/
def w6 : MainSt := attachStart mkSt poseA

/-- State for the C8 witness: instance 0 attached, all modes preloaded. -/
def w8 : MainSt :=
  { mkSt with currentModel := some 0, scene := [0], instPose := [(0, poseB)],
              nextInst := 1, preloaded := [1, 2, 3] }

/-- State for the C1 witness: all modes preloaded (every attach is
synchronous, so any trace is disciplined). -/
def w1 : MainSt := { mkSt with preloaded := [1, 2, 3] }

/-! Helper lemmas. -/

/-- A call of `loadModelForCurrentMode` while `loadingModels[currentMode]` is
set returns at the guard without any mutation. -/
theorem attach_dropped (st : MainSt) (p : Pose) (h : st.currentMode ∈ st.loading) :
    attachStart st p = st := by
  simp [attachStart, h]

/-- Two filters commute. -/
theorem filter_comm (l : List PendAttach) (p q : PendAttach → Bool) :
    (l.filter p).filter q = (l.filter q).filter p := by
  induction l with
  | nil => rfl
  | cons a as ih =>
    by_cases hp : p a <;> by_cases hq : q a <;>
      simp [List.filter_cons, hp, hq, ih]

/-- A member of a length-one list determines it. -/
theorem eq_singleton_of_mem_len1 {α : Type} {l : List α} {a : α}
    (h : a ∈ l) (hl : l.length = 1) : l = [a] := by
  match l with
  | [] => simp at h
  | [x] =>
    simp only [List.mem_singleton] at h
    simp [h]
  | x :: y :: t => simp at hl

/-- Under the sequential discipline, one synchronous attach prefix preserves
slot coherence: either it is dropped at the guard, attaches a fresh clone of
a preloaded template (after detaching and disposing the previous instance),
or empties the slot and leaves exactly one unresolved load behind. -/
theorem inv_attach (st : MainSt) (p : Pose)
    (hA : st.scene = modelList st.currentModel) (hq : unsettled st = []) :
    Inv (attachStart st p) := by
  have hq' : ∀ a ∈ st.pendingA, a.settled = true := by
    intro a ha
    by_contra hcon
    have hmem : a ∈ st.pendingA.filter (fun pl => !pl.settled) := by
      simp [List.mem_filter, ha, hcon]
    rw [show st.pendingA.filter (fun pl => !pl.settled) = unsettled st from rfl,
        hq] at hmem
    simp at hmem
  unfold attachStart
  by_cases hm : st.currentMode ∈ st.loading
  · simpa [hm, Inv, hA] using Or.inl hq
  · cases hc : st.currentModel with
    | none =>
      have hsc : st.scene = [] := by simpa [modelList, hc] using hA
      by_cases hp2 : st.currentMode ∈ st.preloaded
      · simp [hm, hp2, disposeCurrent, hc, Inv, modelList, unsettled, hsc]
        exact hq'
      · simp [hm, hp2, disposeCurrent, hc, Inv, modelList, unsettled, hsc]
        exact hq'
    | some c =>
      have hsc : st.scene = [c] := by simpa [modelList, hc] using hA
      by_cases hp2 : st.currentMode ∈ st.preloaded
      · simp [hm, hp2, disposeCurrent, hc, Inv, modelList, unsettled, hsc]
        exact hq'
      · simp [hm, hp2, disposeCurrent, hc, Inv, modelList, unsettled, hsc]
        exact hq'

/-- Dropping a pending load restricts the unresolved loads. -/
theorem unsettled_removePend (st : MainSt) (i : Nat) :
    unsettled (removePend st i)
      = (unsettled st).filter (fun pl => pl.plid ≠ i) := by
  unfold unsettled removePend
  exact filter_comm st.pendingA _ _

/-- Slot coherence only looks at scene, slot and pending loads, so a status
update preserves it. -/
theorem inv_status (s : MainSt) (m : String) :
    Inv { s with statusMsg := m } ↔ Inv s := by
  simp [Inv, unsettled]

/-- Removing a settled pending load preserves slot coherence. -/
theorem inv_removePend (st : MainSt) (i : Nat) (h : Inv st) :
    Inv (removePend st i) := by
  obtain ⟨hA, hOr⟩ := h
  refine ⟨by simpa [removePend] using hA, ?_⟩
  rw [unsettled_removePend]
  rcases hOr with hO | ⟨hl, hm⟩
  · exact Or.inl (by simp [hO])
  · obtain ⟨a, ha⟩ := List.length_eq_one.mp hl
    rw [ha]
    by_cases hq : a.plid ≠ i
    · exact Or.inr ⟨by simp [List.filter_cons, hq], by simpa [removePend] using hm⟩
    · exact Or.inl (by simp [List.filter_cons, hq])

/-- The resumption of a successful decode preserves slot coherence. -/
theorem inv_decodeOk (st : MainSt) (i : Nat) (h : Inv st) : Inv (decodeOk st i) := by
  unfold decodeOk
  cases hf : findPend st i with
  | none => exact h
  | some pl =>
    have hmem : pl ∈ st.pendingA := List.mem_of_find?_eq_some hf
    have hpl : pl.plid = i := by simpa using List.find?_some hf
    by_cases hs : pl.settled
    · simpa [hs] using inv_removePend st i h
    · have hup : pl ∈ unsettled st := by
        simp [unsettled, List.mem_filter, hmem, hs]
      rcases h with ⟨hA, hO | ⟨hl, hm⟩⟩
      · rw [hO] at hup; simp at hup
      · have hsingle : st.pendingA.filter (fun pl => !pl.settled) = [pl] :=
          eq_singleton_of_mem_len1 hup hl
        have hsc : st.scene = [] := by simpa [modelList, hm] using hA
        simp only [hs, Bool.false_eq_true, if_false]
        constructor
        · simp [removePend, hsc, modelList]
        · left
          rw [unsettled_removePend]
          simp [unsettled, hsingle, List.filter_cons, hpl]

/-- The resumption of a failed decode preserves slot coherence. -/
theorem inv_decodeFail (st : MainSt) (i : Nat) (h : Inv st) :
    Inv (decodeFail st i) := by
  unfold decodeFail
  cases hf : findPend st i with
  | none => exact h
  | some pl =>
    have hmem : pl ∈ st.pendingA := List.mem_of_find?_eq_some hf
    have hpl : pl.plid = i := by simpa using List.find?_some hf
    by_cases hs : pl.settled
    · simpa [hs] using inv_removePend st i h
    · have hup : pl ∈ unsettled st := by
        simp [unsettled, List.mem_filter, hmem, hs]
      rcases h with ⟨hA, hO | ⟨hl, hm⟩⟩
      · rw [hO] at hup; simp at hup
      · have hsingle : st.pendingA.filter (fun pl => !pl.settled) = [pl] :=
          eq_singleton_of_mem_len1 hup hl
        simp only [hs, Bool.false_eq_true, if_false]
        constructor
        · simpa [removePend, modelList] using hA
        · left
          rw [unsettled_removePend]
          simp [unsettled, hsingle, List.filter_cons, hpl]

/-- Marking the pending loads with id i as settled restricts the unresolved
loads to those with a different id. -/
theorem unsettled_mark (l : List PendAttach) (i : Nat) :
    (l.map (fun q => if q.plid = i then { q with settled := true } else q)).filter
        (fun pl => !pl.settled)
      = (l.filter (fun pl => !pl.settled)).filter (fun pl => pl.plid ≠ i) := by
  induction l with
  | nil => rfl
  | cons a as ih =>
    by_cases hp : a.plid = i
    · by_cases hsa : a.settled <;>
        simp [List.filter_cons, List.map_cons, hp, hsa, ih]
    · by_cases hsa : a.settled <;>
        simp [List.filter_cons, List.map_cons, hp, hsa, ih]

/-- The timeout firing preserves slot coherence. -/
theorem inv_timeout (st : MainSt) (i : Nat) (h : Inv st) :
    Inv (timeoutFire st i) := by
  unfold timeoutFire
  cases hf : findPend st i with
  | none => exact h
  | some pl =>
    have hmem : pl ∈ st.pendingA := List.mem_of_find?_eq_some hf
    have hpl : pl.plid = i := by simpa using List.find?_some hf
    by_cases hs : pl.settled
    · simpa [hs] using h
    · have hup : pl ∈ unsettled st := by
        simp [unsettled, List.mem_filter, hmem, hs]
      rcases h with ⟨hA, hO | ⟨hl, hm⟩⟩
      · rw [hO] at hup; simp at hup
      · have hsingle : st.pendingA.filter (fun pl => !pl.settled) = [pl] :=
          eq_singleton_of_mem_len1 hup hl
        simp only [hs, Bool.false_eq_true, if_false]
        constructor
        · simpa [modelList] using hA
        · left
          show (st.pendingA.map _).filter _ = []
          rw [unsettled_mark]
          simp [hsingle, List.filter_cons, hpl]

/-- Slot coherence only depends on the scene, the slot and the pending
attach loads. -/
theorem inv_fields {s t : MainSt} (h : Inv s) (hsc : t.scene = s.scene)
    (hcm : t.currentModel = s.currentModel) (hpa : t.pendingA = s.pendingA) :
    Inv t := by
  obtain ⟨hA, hO⟩ := h
  constructor
  · rw [hsc, hcm]; exact hA
  · simpa [unsettled, hpa, hcm] using hO

/-- Starting a preload does not touch scene, slot or attach loads. -/
theorem inv_preload (st : MainSt) (m : Nat) (h : Inv st) :
    Inv (preloadStart st m) := by
  unfold preloadStart
  by_cases hp : m ∈ st.preloaded
  · simpa [hp] using h
  · rw [if_neg hp]
    exact inv_fields h rfl rfl rfl

/-- Completing a preload does not touch scene, slot or attach loads. -/
theorem inv_preOk (st : MainSt) (i : Nat) (h : Inv st) :
    Inv (preloadOk st i) := by
  unfold preloadOk
  cases hf : st.pendingPre.find? (fun e => e.1 = i) with
  | none => exact h
  | some e => exact inv_fields h rfl rfl rfl

/-- A select trigger issued under the sequential discipline preserves slot
coherence. -/
theorem inv_onSelect (st : MainSt) (h : Inv st) (hq : unsettled st = []) :
    Inv (onSelect st) := by
  obtain ⟨hA, hO⟩ := h
  unfold onSelect
  by_cases hP : st.isPresenting
  · rw [if_neg (by simp [hP])]
    by_cases hR : st.reticleVisible
    · rw [if_pos hR]
      by_cases h1 : dist2 st.retPos st.camPos < minDistance^2
      · rw [if_pos h1]
        exact inv_fields ⟨hA, hO⟩ rfl rfl rfl
      · rw [if_neg h1]
        by_cases h2 : maxDistance^2 < dist2 st.retPos st.camPos
        · rw [if_pos h2]
          exact inv_fields ⟨hA, hO⟩ rfl rfl rfl
        · rw [if_neg h2]
          exact inv_fields (inv_attach st (placementPose st) hA hq) rfl rfl rfl
    · rw [if_neg hR]
      cases hc : st.currentModel with
      | some c =>
        unfold cycleMode
        simp only [hc]
        exact inv_attach _ _ (by simpa [modelList, hc] using hA)
          (by simpa [unsettled] using hq)
      | none => exact inv_fields ⟨hA, hO⟩ (by simp) (by simp [hc]) (by simp)
  · rw [if_pos (by simp [hP])]
    exact ⟨hA, hO⟩

/-- One event under the sequential discipline preserves slot coherence. -/
theorem inv_step (st : MainSt) (e : Ev) (h : Inv st)
    (hqe : needsQuiet e = true → unsettled st = []) : Inv (step st e) := by
  cases e with
  | attach p => exact inv_attach st p h.1 (hqe rfl)
  | select m p =>
      have hq := hqe rfl
      simp only [step, selectRoutine]
      exact inv_attach _ p (by simpa using h.1) (by simpa [unsettled] using hq)
  | tap => exact inv_onSelect st h (hqe rfl)
  | decOk i => exact inv_decodeOk st i h
  | decFail i => exact inv_decodeFail st i h
  | timeout i => exact inv_timeout st i h
  | preload m => exact inv_preload st m h
  | preOk i => exact inv_preOk st i h

/-- Any disciplined event sequence preserves slot coherence. -/
theorem inv_run (st : MainSt) (evs : List Ev) (h : Inv st)
    (hd : disciplined st evs = true) : Inv (run st evs) := by
  induction evs generalizing st with
  | nil => exact h
  | cons e es ih =>
    rw [disciplined, Bool.and_eq_true] at hd
    obtain ⟨h1, h2⟩ := hd
    have hqe : needsQuiet e = true → unsettled st = [] := by
      intro hne
      rcases Bool.or_eq_true_iff.mp h1 with hx | hx
      · rw [hne] at hx; simp at hx
      · simpa [List.isEmpty_iff] using hx
    exact ih (step st e) (inv_step st e h hqe) h2

/-- Slot coherence bounds the number of attached instances by one. -/
theorem inv_scene_len (st : MainSt) (h : Inv st) : st.scene.length ≤ 1 := by
  obtain ⟨hA, _⟩ := h
  rw [hA]
  cases st.currentModel <;> simp [modelList]

/-- Within a single non-dropped attach call, the previously attached instance
is removed from the scene and disposed, and is no longer attached afterwards
(the instance produced by the call, if any, is the fresh `nextInst`). -/
theorem attach_disposes_previous (s : MainSt) (c : Nat) (p : Pose)
    (hc : s.currentModel = some c) (hsc : s.scene = [c])
    (hl : s.currentMode ∉ s.loading) (hne : s.nextInst ≠ c) :
    c ∈ (attachStart s p).disposed ∧ c ∉ (attachStart s p).scene := by
  unfold attachStart
  by_cases hp2 : s.currentMode ∈ s.preloaded <;>
    simp [hl, hp2, disposeCurrent, hc, hsc, Ne.symm hne]

mutual

/-- Cloning copies the hierarchy and keeps every resource id, so on this
data representation it is the identity. -/
theorem cloneNode_eq : (n : Node) → cloneNode n = n
  | .mesh g ms cs => by simp [cloneNode, cloneList_eq cs]
  | .group cs => by simp [cloneNode, cloneList_eq cs]

/-- List version of `cloneNode_eq`. -/
theorem cloneList_eq : (l : NodeList) → cloneList l = l
  | .nil => by simp [cloneList]
  | .cons n ns => by simp [cloneList, cloneNode_eq n, cloneList_eq ns]

end

/-- An app.js frame with the flag already set is a no-op. -/
theorem appFrame_requested (h : HSt) (hr : h.requested = true) :
    appFrame h = h := by
  simp [appFrame, hr]

/-- Iterated app.js frames with the flag already set are a no-op. -/
theorem appFrames_requested (n : Nat) (h : HSt) (hr : h.requested = true) :
    appFrames n h = h := by
  induction n with
  | zero => rfl
  | succ k ih => rw [appFrames, appFrame_requested h hr]; exact ih

/-- An app.js frame outside a session is a no-op. -/
theorem appFrame_inactive (h : HSt) (ha : h.sessionActive = false) :
    appFrame h = h := by
  simp [appFrame, ha]

/-- Iterated app.js frames outside a session are a no-op. -/
theorem appFrames_inactive (n : Nat) (h : HSt) (ha : h.sessionActive = false) :
    appFrames n h = h := by
  induction n with
  | zero => rfl
  | succ k ih => rw [appFrames, appFrame_inactive h ha]; exact ih

/-- In app.js, frames rendered after the first one of a session never submit
another probe-source request: the request count stays at most one. -/
theorem appFrames_reqCount (n : Nat) (h : HSt) (hr : h.requested = false)
    (hc : h.reqCount = 0) : (appFrames n h).reqCount ≤ 1 := by
  cases n with
  | zero => simp [appFrames, hc]
  | succ k =>
    rw [appFrames]
    by_cases ha : h.sessionActive
    · have hstep : appFrame h
          = { h with reqCount := h.reqCount + 1, pendingAcq := h.pendingAcq + 1,
                     requested := true } := by
        simp [appFrame, ha, hr]
      rw [hstep, appFrames_requested k _ rfl]
      simp [hc]
    · rw [appFrame_inactive h (by simpa using ha),
          appFrames_inactive k h (by simpa using ha)]
      simp [hc]

/-- The select handler, too-close branch (main.js lines 776-780): only the
status text changes. -/
theorem onSelect_tooClose (st : MainSt) (hP : st.isPresenting = true)
    (hR : st.reticleVisible = true)
    (h1 : dist2 st.retPos st.camPos < minDistance^2) :
    onSelect st = { st with statusMsg := "Modelo muy cerca. Aleja un poco la camara." } := by
  unfold onSelect
  rw [if_neg (by simp [hP]), if_pos hR, if_pos h1]

/-- The select handler, too-far branch (main.js lines 782-786): only the
status text changes (a distance beyond the maximum is in particular not
below the minimum, so the first range check falls through). -/
theorem onSelect_tooFar (st : MainSt) (hP : st.isPresenting = true)
    (hR : st.reticleVisible = true)
    (h2 : maxDistance^2 < dist2 st.retPos st.camPos) :
    onSelect st = { st with statusMsg := "Modelo muy lejos. Acerca un poco la camara." } := by
  have h1 : ¬ dist2 st.retPos st.camPos < minDistance^2 :=
    not_lt.mpr (le_of_lt (lt_of_le_of_lt (by norm_num [minDistance, maxDistance]) h2))
  unfold onSelect
  rw [if_neg (by simp [hP]), if_pos hR, if_neg h1, if_pos h2]

/-- The select handler, in-range branch (main.js lines 788-803): the
placement is forwarded to the attach operation. -/
theorem onSelect_inRange (st : MainSt) (hP : st.isPresenting = true)
    (hR : st.reticleVisible = true)
    (h1 : minDistance^2 ≤ dist2 st.retPos st.camPos)
    (h2 : dist2 st.retPos st.camPos ≤ maxDistance^2) :
    onSelect st = { attachStart st (placementPose st) with
                      statusMsg := "Modelo colocado en AR. Toca para cambiar rutina." } := by
  unfold onSelect
  rw [if_neg (by simp [hP]), if_pos hR, if_neg (not_lt.mpr h1),
      if_neg (not_lt.mpr h2)]

/-- Detaching the previous model always leaves the slot variable null (it is
either nulled explicitly or was null already). -/
theorem disposeCurrent_model (s : MainSt) : (disposeCurrent s).currentModel = none := by
  cases hc : s.currentModel <;> simp [disposeCurrent, hc]

/-- Detaching the previous model does not touch the loading flags. -/
theorem disposeCurrent_loading (s : MainSt) : (disposeCurrent s).loading = s.loading := by
  cases hc : s.currentModel <;> simp [disposeCurrent, hc]

/-- Detaching the previous model does not touch the decode log. -/
theorem disposeCurrent_decodeLog (s : MainSt) :
    (disposeCurrent s).decodeLog = s.decodeLog := by
  cases hc : s.currentModel <;> simp [disposeCurrent, hc]

/-- Detaching the previous model does not touch the pending attach loads. -/
theorem disposeCurrent_pendingA (s : MainSt) :
    (disposeCurrent s).pendingA = s.pendingA := by
  cases hc : s.currentModel <;> simp [disposeCurrent, hc]

/-- Detaching the previous model does not change the mode. -/
theorem disposeCurrent_mode (s : MainSt) :
    (disposeCurrent s).currentMode = s.currentMode := by
  cases hc : s.currentModel <;> simp [disposeCurrent, hc]

/-- Detaching the previous model does not touch the preload cache. -/
theorem disposeCurrent_preloaded (s : MainSt) :
    (disposeCurrent s).preloaded = s.preloaded := by
  cases hc : s.currentModel <;> simp [disposeCurrent, hc]

/-- Detaching the previous model does not touch the counters. -/
theorem disposeCurrent_nextPend (s : MainSt) :
    (disposeCurrent s).nextPend = s.nextPend := by
  cases hc : s.currentModel <;> simp [disposeCurrent, hc]

/-- Detaching the previous model does not touch the pose records. -/
theorem disposeCurrent_instPose (s : MainSt) :
    (disposeCurrent s).instPose = s.instPose := by
  cases hc : s.currentModel <;> simp [disposeCurrent, hc]

/-- Detaching the previous model does not touch the disposal list when the
slot is empty; in general the old slot occupant is prepended. -/
theorem disposeCurrent_scene_of_singleton (s : MainSt) (c : Nat)
    (hc : s.currentModel = some c) (hsc : s.scene = [c]) :
    (disposeCurrent s).scene = [] := by
  simp [disposeCurrent, hc, hsc]

/-- The explicit form of a non-dropped attach call on a mode without a cached
template: the previous model is detached and disposed, the loading flag set,
one decode submitted and one unresolved load registered. -/
theorem attach_pending (s : MainSt) (p : Pose)
    (hl : s.currentMode ∉ s.loading) (hp : s.currentMode ∉ s.preloaded) :
    attachStart s p
      = { disposeCurrent s with
            loading := s.currentMode :: (disposeCurrent s).loading,
            statusMsg := "Cargando rutina...",
            decodeLog := s.currentMode :: (disposeCurrent s).decodeLog,
            pendingA := ⟨s.nextPend, s.currentMode, p, false⟩
              :: (disposeCurrent s).pendingA,
            nextPend := s.nextPend + 1 } := by
  unfold attachStart
  rw [if_neg hl,
      if_neg (by rw [disposeCurrent_preloaded]; exact hp)]
  cases hcc : s.currentModel <;> simp [disposeCurrent, hcc]

/-- The key projections of a non-dropped attach call on a mode with a cached
template: the mode is unchanged, the new slot occupant is the fresh clone,
and its recorded pose is the requested one. -/
theorem attach_cached (s : MainSt) (p : Pose)
    (hl : s.currentMode ∉ s.loading) (hp : s.currentMode ∈ s.preloaded) :
    (attachStart s p).currentMode = s.currentMode ∧
    (attachStart s p).currentModel = some s.nextInst ∧
    poseOf (attachStart s p) s.nextInst = p := by
  unfold attachStart
  rw [if_neg hl,
      if_pos (by rw [disposeCurrent_preloaded]; exact hp)]
  cases hcc : s.currentModel <;>
    simp [disposeCurrent, hcc, poseOf, List.find?_cons]

/-- A non-dropped attach on an uncached mode submits exactly one decode for
that mode. -/
theorem attach_decodes (s : MainSt) (q : Pose)
    (hl : s.currentMode ∉ s.loading) (hp : s.currentMode ∉ s.preloaded) :
    (attachStart s q).decodeLog.count s.currentMode
      = s.decodeLog.count s.currentMode + 1 := by
  rw [attach_pending s q hl hp]
  simp [disposeCurrent_decodeLog]

/-- Finding by id commutes with marking that id as settled. -/
theorem find?_mark (l : List PendAttach) (i : Nat) :
    (l.map (fun q => if q.plid = i then { q with settled := true } else q)).find?
        (fun pl => pl.plid = i)
      = (l.find? (fun pl => pl.plid = i)).map
          (fun q => { q with settled := true }) := by
  induction l with
  | nil => rfl
  | cons a as ih =>
    by_cases hp : a.plid = i <;> simp [List.find?_cons, hp, ih]

/-! Claim theorems. -/

/-- Claim C1, counterexample.  The claim says that for every interleaving of
attach requests the scene contains at most one attached instance.  Concrete
violating interleaving: an attach for mode 1 (not preloaded) suspends at its
load await; the user selects routine 2 (preloaded), which attaches a clone
synchronously; then the first load resolves, and its continuation overwrites
`currentModel` and adds its instance to the scene WITHOUT detaching the clone
- the scene now holds two attached instances. -/
theorem C1_counterexample :
    (run stC1 [Ev.attach poseA, Ev.select 2 poseB, Ev.decOk 0]).scene.length = 2 := by
  decide

/-- Claim C1, amended: provided no attach request (direct call, routine
selection or select tap) is issued while an earlier attach load is still
unresolved, slot coherence is an invariant of every event sequence - the
scene always holds exactly the slot instance, hence at most one attached
instance - and, within each non-dropped attach call, the previously attached
instance is detached from the scene and disposed and is not attached
afterwards. -/
theorem C1_amended_single_attach (st : MainSt) (evs : List Ev)
    (h : Inv st) (hd : disciplined st evs = true) :
    (Inv (run st evs) ∧ (run st evs).scene.length ≤ 1) ∧
    (∀ (s : MainSt) (c : Nat) (p : Pose),
      s.currentModel = some c → s.scene = [c] → s.currentMode ∉ s.loading →
      s.nextInst ≠ c →
      c ∈ (attachStart s p).disposed ∧ c ∉ (attachStart s p).scene) := by
  refine ⟨⟨inv_run st evs h hd, inv_scene_len _ (inv_run st evs h hd)⟩, ?_⟩
  intro s c p hc hsc hl hne
  exact attach_disposes_previous s c p hc hsc hl hne

/-- Witness for the amended C1 at a concrete disciplined trace (all modes
preloaded, so every attach is synchronous). -/
theorem C1_amended_witness :
    Inv (run w1 [Ev.attach poseA, Ev.select 2 poseB, Ev.tap]) ∧
    (run w1 [Ev.attach poseA, Ev.select 2 poseB, Ev.tap]).scene.length ≤ 1 :=
  (C1_amended_single_attach w1 [Ev.attach poseA, Ev.select 2 poseB, Ev.tap]
    ⟨by decide, Or.inl (by decide)⟩ (by decide)).1

/-- Claim C3, counterexample.  The claim says at most one load is ever in
flight per id and a second request never triggers a second decode call.  But
`preloadModel` guards only on COMPLETED preloads: a second `preloadModel`
for id 1 issued while the first is still in flight submits a second
`loader.load`, raising the decode call count for id 1 from 1 to 2. -/
theorem C3_counterexample :
    (run mkSt [Ev.preload 1]).decodeLog.count 1 = 1 ∧
    (run mkSt [Ev.preload 1, Ev.preload 1]).decodeLog.count 1 = 2 := by
  decide

/-- Claim C3, amended: the attach path does coalesce per id - a first attach
for a non-preloaded, non-loading mode submits exactly one decode and sets the
loading flag, and a second attach for the same mode while the flag is set is
a complete no-op (in particular no second decode); the preload path however
dedupes only completed preloads (`preloadStart` is the identity exactly on
cached ids). -/
theorem C3_amended_attach_coalesced (st : MainSt) (p q : Pose) (m : Nat)
    (hm : st.currentMode = m) (hl : m ∉ st.loading) (hp : m ∉ st.preloaded) :
    m ∈ (attachStart st p).loading ∧
    (attachStart st p).decodeLog.count m = st.decodeLog.count m + 1 ∧
    attachStart (attachStart st p) q = attachStart st p ∧
    (∀ k ∈ st.preloaded, preloadStart st k = st) := by
  subst hm
  have hrec : attachStart st p
      = { disposeCurrent st with
            loading := st.currentMode :: (disposeCurrent st).loading,
            statusMsg := "Cargando rutina...",
            decodeLog := st.currentMode :: (disposeCurrent st).decodeLog,
            pendingA := ⟨(disposeCurrent st).nextPend, st.currentMode, p, false⟩
              :: (disposeCurrent st).pendingA,
            nextPend := (disposeCurrent st).nextPend + 1 } := by
    unfold attachStart
    rw [if_neg hl, if_neg (by cases hc : st.currentModel <;> simp [disposeCurrent, hc, hp])]
  have hdl : (disposeCurrent st).decodeLog = st.decodeLog := by
    cases hc : st.currentModel <;> simp [disposeCurrent, hc]
  have hld : (disposeCurrent st).loading = st.loading := by
    cases hc : st.currentModel <;> simp [disposeCurrent, hc]
  have hcm : (disposeCurrent st).currentMode = st.currentMode := by
    cases hc : st.currentModel <;> simp [disposeCurrent, hc]
  refine ⟨?_, ?_, ?_, ?_⟩
  · rw [hrec]; simp
  · rw [hrec]; simp [hdl]
  · apply attach_dropped
    rw [hrec]; simp [hcm]
  · intro k hk
    simp [preloadStart, hk]

/-- Witness for the amended C3 at a concrete state. -/
theorem C3_amended_witness :
    1 ∈ (attachStart { mkSt with preloaded := [2] } poseA).loading ∧
    preloadStart { mkSt with preloaded := [2] } 2 = { mkSt with preloaded := [2] } := by
  have h := C3_amended_attach_coalesced { mkSt with preloaded := [2] } poseA poseB 1
    (by decide) (by decide) (by decide)
  exact ⟨h.1, h.2.2.2 2 (by decide)⟩

/-- Claim C4, counterexample.  The claim says disposing the instance returned
for a cached id leaves the shared cached template unchanged and usable.  But
the clone shares geometry, texture and material resources with the template,
so disposing the clone releases every resource of the template (here its
geometry 0, texture 0 and material 0). -/
theorem C4_counterexample :
    disposeNode (cloneNode tpl4) = [Res.geom 0, Res.tex 0, Res.mat 0] ∧
    Res.geom 0 ∈ disposeNode (cloneNode tpl4) := by
  refine ⟨rfl, ?_⟩
  rw [show disposeNode (cloneNode tpl4) = [Res.geom 0, Res.tex 0, Res.mat 0] from rfl]
  simp

/-- Claim C4, amended: the cached path returns a clone whose node hierarchy
is fresh but which references exactly the resources of the template (on this
resource-id representation the clone is equal to the template), and therefore
disposing the returned clone releases exactly the resources of the shared
template - the template data survives but its GPU resources do not. -/
theorem C4_amended_clone_shares (n : Node) :
    cloneNode n = n ∧ disposeNode (cloneNode n) = disposeNode n := by
  refine ⟨cloneNode_eq n, ?_⟩
  rw [cloneNode_eq n]

/-- Claim C7, counterexample.  The claim says the probe source is requested
at most once per session regardless of how many frames are rendered while
the request is pending.  In main.js `hitTestSourceRequested` is set only
after the acquisition completes, so each of two frames rendered while it is
pending submits its own request. -/
theorem C7_counterexample : (mainFrame (mainFrame h0)).reqCount = 2 := by
  decide

/-- Claim C7, amended: in app.js the flag is set synchronously in the same
frame that submits the request, so over any number of frames of one session
at most one probe-source request is submitted; in main.js, by contrast,
every frame rendered while the flag is still unset (in particular while the
acquisition is pending) submits a further request; and in both
implementations the session-end listener resets the probe source and the
requested flag. -/
theorem C7_amended_hit_test (h : HSt) (n : Nat) :
    (h.sessionActive = true → h.requested = false →
      (mainFrame h).reqCount = h.reqCount + 1 ∧ (mainFrame h).requested = false) ∧
    (h.requested = false → h.reqCount = 0 → (appFrames n h).reqCount ≤ 1) ∧
    ((mainSessionEnd h).requested = false ∧ (mainSessionEnd h).source = none) ∧
    ((appSessionEnd h).requested = false ∧ (appSessionEnd h).source = none) := by
  refine ⟨?_, ?_, ?_, ?_⟩
  · intro ha hr
    constructor <;> simp [mainFrame, ha, hr]
  · intro hr hc
    exact appFrames_reqCount n h hr hc
  · constructor <;> simp [mainSessionEnd]
  · constructor <;> simp [appSessionEnd]

/-- Witness for the amended C7 at a fresh session and five frames. -/
theorem C7_amended_witness :
    (mainFrame h0).reqCount = h0.reqCount + 1 ∧ (appFrames 5 h0).reqCount ≤ 1 :=
  ⟨((C7_amended_hit_test h0 5).1 (by decide) (by decide)).1,
   (C7_amended_hit_test h0 5).2.1 (by decide) (by decide)⟩

/-- Claim C9 (confirmed): with the reticle visible during a presentation,
the candidate distance is validated against CONFIG.MODEL before any
mutation: below the minimum the handler only sets a user-facing rejection
message (the whole state is otherwise untouched), while an in-range distance
is forwarded unchanged to the attach operation. -/
theorem C9_distance_gate (st : MainSt)
    (hP : st.isPresenting = true) (hR : st.reticleVisible = true) :
    (dist2 st.retPos st.camPos < minDistance^2 →
      onSelect st = { st with statusMsg := "Modelo muy cerca. Aleja un poco la camara." }) ∧
    (minDistance^2 ≤ dist2 st.retPos st.camPos →
     dist2 st.retPos st.camPos ≤ maxDistance^2 →
      onSelect st = { attachStart st (placementPose st) with
                        statusMsg := "Modelo colocado en AR. Toca para cambiar rutina." }) := by
  exact ⟨onSelect_tooClose st hP hR, onSelect_inRange st hP hR⟩

/-- Witness for C9: distance 0.1 is rejected (status message only), distance
5 is accepted and forwarded. -/
theorem C9_witness :
    onSelect w9a = { w9a with statusMsg := "Modelo muy cerca. Aleja un poco la camara." } ∧
    onSelect w9b = { attachStart w9b (placementPose w9b) with
                       statusMsg := "Modelo colocado en AR. Toca para cambiar rutina." } :=
  ⟨(C9_distance_gate w9a (by decide) (by decide)).1
     (by norm_num [dist2, w9a, mkSt, minDistance]),
   (C9_distance_gate w9b (by decide) (by decide)).2
     (by norm_num [dist2, w9b, mkSt, minDistance])
     (by norm_num [dist2, w9b, mkSt, maxDistance])⟩

/-- Claim C10 (confirmed): an attach call that is dropped because the
loading flag of the current mode is set performs no mutation at all - the
resulting state is equal to the old one, so the attached model, its pose
record, the scene, the disposal list, the decode log and the pending loads
are all unchanged. -/
theorem C10_coalesced_no_mutation (st : MainSt) (p : Pose)
    (h : st.currentMode ∈ st.loading) : attachStart st p = st :=
  attach_dropped st p h

/-- Witness for C10 at a concrete state with mode 1 loading. -/
theorem C10_witness : attachStart stC10 poseA = stC10 :=
  C10_coalesced_no_mutation stC10 poseA (by decide)

/-- Claim C2, counterexample.  The claim says a failed attach leaves the
previously attached asset still attached and usable.  But
`loadModelForCurrentMode` detaches and disposes the previous model BEFORE
awaiting the loader: starting from a state with instance 0 attached, an
attach whose load then fails leaves the scene empty, the slot null, and
instance 0 disposed - the previous asset is not restored. -/
theorem C2_counterexample :
    (run stC2 [Ev.attach poseA, Ev.decFail 0]).scene = [] ∧
    (run stC2 [Ev.attach poseA, Ev.decFail 0]).currentModel = none ∧
    0 ∈ (run stC2 [Ev.attach poseA, Ev.decFail 0]).disposed := by
  decide

/-- Claim C2, amended: an out-of-range placement - too close OR too far - is
rejected before any mutation (only the status message changes, in particular
the attached model, its pose record, the disposal list, the decode log, the
pending loads and the mode are untouched); a load that fails on both decode
paths or times out, by contrast, leaves the slot EMPTY with the mode
unchanged - the previously attached instance was already detached and
disposed when the request started and is not restored on failure. -/
theorem C2_amended_prev_state (st : MainSt) :
    (st.isPresenting = true → st.reticleVisible = true →
      dist2 st.retPos st.camPos < minDistance^2 →
      ((onSelect st).scene = st.scene ∧
       (onSelect st).currentModel = st.currentModel ∧
       (onSelect st).disposed = st.disposed ∧
       (onSelect st).currentMode = st.currentMode ∧
       (onSelect st).decodeLog = st.decodeLog ∧
       (onSelect st).pendingA = st.pendingA ∧
       (onSelect st).instPose = st.instPose)) ∧
    (st.isPresenting = true → st.reticleVisible = true →
      maxDistance^2 < dist2 st.retPos st.camPos →
      ((onSelect st).scene = st.scene ∧
       (onSelect st).currentModel = st.currentModel ∧
       (onSelect st).disposed = st.disposed ∧
       (onSelect st).currentMode = st.currentMode ∧
       (onSelect st).decodeLog = st.decodeLog ∧
       (onSelect st).pendingA = st.pendingA ∧
       (onSelect st).instPose = st.instPose)) ∧
    (∀ (c : Nat) (p : Pose),
      st.currentModel = some c → st.scene = [c] →
      st.currentMode ∉ st.loading → st.currentMode ∉ st.preloaded →
      st.pendingA = [] →
      ((decodeFail (attachStart st p) st.nextPend).currentModel = none ∧
       (decodeFail (attachStart st p) st.nextPend).scene = [] ∧
       c ∈ (decodeFail (attachStart st p) st.nextPend).disposed ∧
       (decodeFail (attachStart st p) st.nextPend).currentMode = st.currentMode)) ∧
    (∀ (c : Nat) (p : Pose),
      st.currentModel = some c → st.scene = [c] →
      st.currentMode ∉ st.loading → st.currentMode ∉ st.preloaded →
      st.pendingA = [] →
      ((timeoutFire (attachStart st p) st.nextPend).currentModel = none ∧
       (timeoutFire (attachStart st p) st.nextPend).scene = [] ∧
       c ∈ (timeoutFire (attachStart st p) st.nextPend).disposed ∧
       (timeoutFire (attachStart st p) st.nextPend).currentMode = st.currentMode)) := by
  refine ⟨?_, ?_, ?_, ?_⟩
  · intro hP hR h1
    rw [onSelect_tooClose st hP hR h1]
    exact ⟨rfl, rfl, rfl, rfl, rfl, rfl, rfl⟩
  · intro hP hR h2
    rw [onSelect_tooFar st hP hR h2]
    exact ⟨rfl, rfl, rfl, rfl, rfl, rfl, rfl⟩
  · intro c p hc hsc hl hp hq0
    rw [attach_pending st p hl hp]
    have hfp : findPend
        { disposeCurrent st with
            loading := st.currentMode :: (disposeCurrent st).loading,
            statusMsg := "Cargando rutina...",
            decodeLog := st.currentMode :: (disposeCurrent st).decodeLog,
            pendingA := ⟨st.nextPend, st.currentMode, p, false⟩
              :: (disposeCurrent st).pendingA,
            nextPend := st.nextPend + 1 } st.nextPend
        = some ⟨st.nextPend, st.currentMode, p, false⟩ := by
      simp [findPend, List.find?_cons]
    unfold decodeFail
    rw [hfp]
    simp only [Bool.false_eq_true, if_false]
    refine ⟨?_, ?_, ?_, ?_⟩
    · simp [removePend, disposeCurrent_model]
    · simp [removePend, disposeCurrent_scene_of_singleton st c hc hsc]
    · simp [removePend, disposeCurrent, hc]
    · simp [removePend, disposeCurrent_mode]
  · intro c p hc hsc hl hp hq0
    rw [attach_pending st p hl hp]
    have hfp : findPend
        { disposeCurrent st with
            loading := st.currentMode :: (disposeCurrent st).loading,
            statusMsg := "Cargando rutina...",
            decodeLog := st.currentMode :: (disposeCurrent st).decodeLog,
            pendingA := ⟨st.nextPend, st.currentMode, p, false⟩
              :: (disposeCurrent st).pendingA,
            nextPend := st.nextPend + 1 } st.nextPend
        = some ⟨st.nextPend, st.currentMode, p, false⟩ := by
      simp [findPend, List.find?_cons]
    unfold timeoutFire
    rw [hfp]
    simp only [Bool.false_eq_true, if_false]
    refine ⟨?_, ?_, ?_, ?_⟩
    · simp [disposeCurrent_model]
    · simp [disposeCurrent_scene_of_singleton st c hc hsc]
    · simp [disposeCurrent, hc]
    · simp [disposeCurrent_mode]

/-- Witness for the amended C2: too-close rejection at distance 0.1, too-far
rejection at distance 11, and both failure paths (decode failure and
timeout) starting from instance 0 attached. -/
theorem C2_amended_witness :
    (onSelect w9a).currentModel = w9a.currentModel ∧
    (onSelect w9c).currentModel = w9c.currentModel ∧
    (decodeFail (attachStart stC2 poseA) stC2.nextPend).currentModel = none ∧
    0 ∈ (decodeFail (attachStart stC2 poseA) stC2.nextPend).disposed ∧
    (timeoutFire (attachStart stC2 poseA) stC2.nextPend).currentModel = none ∧
    0 ∈ (timeoutFire (attachStart stC2 poseA) stC2.nextPend).disposed :=
  ⟨((C2_amended_prev_state w9a).1 (by decide) (by decide)
      (by norm_num [dist2, w9a, mkSt, minDistance])).2.1,
   ((C2_amended_prev_state w9c).2.1 (by decide) (by decide)
      (by norm_num [dist2, w9c, mkSt, maxDistance])).2.1,
   ((C2_amended_prev_state stC2).2.2.1 0 poseA (by decide) (by decide) (by decide)
      (by decide) (by decide)).1,
   ((C2_amended_prev_state stC2).2.2.1 0 poseA (by decide) (by decide) (by decide)
      (by decide) (by decide)).2.2.1,
   ((C2_amended_prev_state stC2).2.2.2 0 poseA (by decide) (by decide) (by decide)
      (by decide) (by decide)).1,
   ((C2_amended_prev_state stC2).2.2.2 0 poseA (by decide) (by decide) (by decide)
      (by decide) (by decide)).2.2.1⟩

/-- Claim C5, counterexample.  The claim says a failed or timed-out load
always clears the per-id loading flag so the id can be retried.  Concrete
violating interleaving: an attach for mode 1 suspends; the user selects
routine 2 (preloaded), changing the module variable currentMode; the mode-1
load then fails, and its finally block clears `loadingModels[currentMode]`
with currentMode now 2 - so the flag of mode 1 stays set forever and a
subsequent selection of routine 1 is dropped at the guard (no new decode, no
new pending load): the state IS poisoned. -/
theorem C5_counterexample :
    1 ∈ (run stC5 [Ev.attach poseA, Ev.select 2 poseB, Ev.decFail 0]).loading ∧
    (selectRoutine (run stC5 [Ev.attach poseA, Ev.select 2 poseB, Ev.decFail 0])
        1 poseC).decodeLog
      = (run stC5 [Ev.attach poseA, Ev.select 2 poseB, Ev.decFail 0]).decodeLog ∧
    (selectRoutine (run stC5 [Ev.attach poseA, Ev.select 2 poseB, Ev.decFail 0])
        1 poseC).pendingA
      = (run stC5 [Ev.attach poseA, Ev.select 2 poseB, Ev.decFail 0]).pendingA := by
  refine ⟨by decide, by decide, by decide⟩

/-- Claim C5, amended: PROVIDED the current mode is not changed while the
load is in flight, both failure paths (double decode error, and timeout
followed by a late decode result) reject leaving the slot empty and the
loading flag of the requested mode cleared, and a retry for the same mode
submits a fresh decode. -/
theorem C5_amended_flag_cleared (st : MainSt) (p q : Pose) (m : Nat)
    (hm : st.currentMode = m) (hl : m ∉ st.loading) (hp : m ∉ st.preloaded)
    (hq0 : st.pendingA = []) :
    ((decodeFail (attachStart st p) st.nextPend).currentModel = none ∧
     m ∉ (decodeFail (attachStart st p) st.nextPend).loading ∧
     (attachStart (decodeFail (attachStart st p) st.nextPend) q).decodeLog.count m
       = (decodeFail (attachStart st p) st.nextPend).decodeLog.count m + 1) ∧
    ((decodeOk (timeoutFire (attachStart st p) st.nextPend) st.nextPend).currentModel
        = none ∧
     m ∉ (decodeOk (timeoutFire (attachStart st p) st.nextPend) st.nextPend).loading ∧
     (attachStart (decodeOk (timeoutFire (attachStart st p) st.nextPend) st.nextPend)
         q).decodeLog.count m
       = (decodeOk (timeoutFire (attachStart st p) st.nextPend) st.nextPend).decodeLog.count
           m + 1) := by
  subst hm
  rw [attach_pending st p hl hp]
  have hfp : findPend
      { disposeCurrent st with
          loading := st.currentMode :: (disposeCurrent st).loading,
          statusMsg := "Cargando rutina...",
          decodeLog := st.currentMode :: (disposeCurrent st).decodeLog,
          pendingA := ⟨st.nextPend, st.currentMode, p, false⟩
            :: (disposeCurrent st).pendingA,
          nextPend := st.nextPend + 1 } st.nextPend
      = some ⟨st.nextPend, st.currentMode, p, false⟩ := by
    simp [findPend, List.find?_cons]
  constructor
  · have hF : decodeFail
        { disposeCurrent st with
            loading := st.currentMode :: (disposeCurrent st).loading,
            statusMsg := "Cargando rutina...",
            decodeLog := st.currentMode :: (disposeCurrent st).decodeLog,
            pendingA := ⟨st.nextPend, st.currentMode, p, false⟩
              :: (disposeCurrent st).pendingA,
            nextPend := st.nextPend + 1 } st.nextPend
        = { disposeCurrent st with
              loading := st.loading,
              statusMsg := "Error cargando rutina.",
              decodeLog := st.currentMode :: (disposeCurrent st).decodeLog,
              pendingA := [],
              nextPend := st.nextPend + 1 } := by
      unfold decodeFail
      rw [hfp]
      simp [removePend, disposeCurrent_pendingA, hq0, List.erase_cons_head,
        disposeCurrent_mode, disposeCurrent_loading]
    rw [hF]
    refine ⟨disposeCurrent_model st, by simpa using hl, ?_⟩
    have := attach_decodes
      { disposeCurrent st with
          loading := st.loading,
          statusMsg := "Error cargando rutina.",
          decodeLog := st.currentMode :: (disposeCurrent st).decodeLog,
          pendingA := [],
          nextPend := st.nextPend + 1 } q
      (by simpa [disposeCurrent_mode] using hl)
      (by simpa [disposeCurrent_mode, disposeCurrent_preloaded] using hp)
    simpa [disposeCurrent_mode] using this
  · have hT : timeoutFire
        { disposeCurrent st with
            loading := st.currentMode :: (disposeCurrent st).loading,
            statusMsg := "Cargando rutina...",
            decodeLog := st.currentMode :: (disposeCurrent st).decodeLog,
            pendingA := ⟨st.nextPend, st.currentMode, p, false⟩
              :: (disposeCurrent st).pendingA,
            nextPend := st.nextPend + 1 } st.nextPend
        = { disposeCurrent st with
              loading := st.loading,
              statusMsg := "Error cargando rutina.",
              decodeLog := st.currentMode :: (disposeCurrent st).decodeLog,
              pendingA := [⟨st.nextPend, st.currentMode, p, true⟩],
              nextPend := st.nextPend + 1 } := by
      unfold timeoutFire
      rw [hfp]
      simp [removePend, disposeCurrent_pendingA, hq0, List.erase_cons_head,
        disposeCurrent_mode, disposeCurrent_loading]
    rw [hT]
    have hfp2 : findPend
        { disposeCurrent st with
            loading := st.loading,
            statusMsg := "Error cargando rutina.",
            decodeLog := st.currentMode :: (disposeCurrent st).decodeLog,
            pendingA := [⟨st.nextPend, st.currentMode, p, true⟩],
            nextPend := st.nextPend + 1 } st.nextPend
        = some ⟨st.nextPend, st.currentMode, p, true⟩ := by
      simp [findPend, List.find?_cons]
    have hO : decodeOk
        { disposeCurrent st with
            loading := st.loading,
            statusMsg := "Error cargando rutina.",
            decodeLog := st.currentMode :: (disposeCurrent st).decodeLog,
            pendingA := [⟨st.nextPend, st.currentMode, p, true⟩],
            nextPend := st.nextPend + 1 } st.nextPend
        = { disposeCurrent st with
              loading := st.loading,
              statusMsg := "Error cargando rutina.",
              decodeLog := st.currentMode :: (disposeCurrent st).decodeLog,
              pendingA := [],
              nextPend := st.nextPend + 1 } := by
      unfold decodeOk
      rw [hfp2]
      simp [removePend]
    rw [hO]
    refine ⟨disposeCurrent_model st, by simpa using hl, ?_⟩
    have := attach_decodes
      { disposeCurrent st with
          loading := st.loading,
          statusMsg := "Error cargando rutina.",
          decodeLog := st.currentMode :: (disposeCurrent st).decodeLog,
          pendingA := [],
          nextPend := st.nextPend + 1 } q
      (by simpa [disposeCurrent_mode] using hl)
      (by simpa [disposeCurrent_mode, disposeCurrent_preloaded] using hp)
    simpa [disposeCurrent_mode] using this

/-- Witness for the amended C5 at the fresh state (mode 1 uncached). -/
theorem C5_amended_witness :
    (decodeFail (attachStart mkSt poseA) mkSt.nextPend).currentModel = none ∧
    (decodeOk (timeoutFire (attachStart mkSt poseA) mkSt.nextPend)
        mkSt.nextPend).currentModel = none :=
  ⟨(C5_amended_flag_cleared mkSt poseA poseB 1 rfl (by decide) (by decide)
      (by decide)).1.1,
   (C5_amended_flag_cleared mkSt poseA poseB 1 rfl (by decide) (by decide)
      (by decide)).2.1⟩

/-- Claim C6, counterexample.  The claim says a decode result arriving after
its request has been superseded by a newer attach is discarded.  Concrete
violating interleaving: the mode-1 attach suspends; routine 3 (preloaded) is
selected and its clone (instance 0) attached, superseding the first request;
the mode-1 decode then resolves - without any timeout - and its instance
(instance 1) IS attached to the scene (and even takes over the slot). -/
theorem C6_counterexample :
    (run stC6 [Ev.attach poseA, Ev.select 3 poseB, Ev.decOk 0]).currentModel = some 1 ∧
    0 ∈ (run stC6 [Ev.attach poseA, Ev.select 3 poseB, Ev.decOk 0]).scene ∧
    1 ∈ (run stC6 [Ev.attach poseA, Ev.select 3 poseB, Ev.decOk 0]).scene := by
  refine ⟨by decide, by decide, by decide⟩

/-- Claim C6, amended: only the TIMEOUT discards late decode results - after
the timeout of a pending load has fired, a late successful decode for that
load changes neither the scene, nor the slot, nor the instance counter, nor
the pose records (no instance is created or attached); a decode resolving
after the request was merely superseded by a newer attach is applied, not
discarded. -/
theorem C6_amended_timeout_discard (st : MainSt) (i : Nat) (pl : PendAttach)
    (hf : findPend st i = some pl) (hs : pl.settled = false) :
    (decodeOk (timeoutFire st i) i).scene = st.scene ∧
    (decodeOk (timeoutFire st i) i).currentModel = st.currentModel ∧
    (decodeOk (timeoutFire st i) i).nextInst = st.nextInst ∧
    (decodeOk (timeoutFire st i) i).instPose = st.instPose := by
  have ht : timeoutFire st i
      = { st with statusMsg := "Error cargando rutina.",
                  loading := st.loading.erase st.currentMode,
                  pendingA := st.pendingA.map
                    (fun q => if q.plid = i then { q with settled := true } else q) } := by
    unfold timeoutFire
    rw [hf]
    simp [hs]
  rw [ht]
  have hf2 : findPend
      { st with statusMsg := "Error cargando rutina.",
                loading := st.loading.erase st.currentMode,
                pendingA := st.pendingA.map
                  (fun q => if q.plid = i then { q with settled := true } else q) } i
      = some { pl with settled := true } := by
    unfold findPend
    simp only []
    rw [find?_mark]
    rw [show st.pendingA.find? (fun pl => pl.plid = i) = some pl from hf]
    rfl
  unfold decodeOk
  rw [hf2]
  simp [removePend]

/-- Witness for the amended C6: one unresolved load, timed out, then its
decode resolves late. -/
theorem C6_amended_witness :
    (decodeOk (timeoutFire w6 0) 0).scene = w6.scene ∧
    (decodeOk (timeoutFire w6 0) 0).currentModel = w6.currentModel :=
  ⟨(C6_amended_timeout_discard w6 0 ⟨0, 1, poseA, false⟩ (by decide) rfl).1,
   (C6_amended_timeout_discard w6 0 ⟨0, 1, poseA, false⟩ (by decide) rfl).2.1⟩

/-- Claim C8 (confirmed): a select trigger during presentation with the
reticle invisible and a model attached advances the mode by
`(currentMode % 3) + 1` - so with the three registered descriptors, starting
from mode 1, exactly three triggers return to mode 1 and fewer do not - and
the re-requested attachment carries exactly the pose (position, orientation
and scale) recorded for the currently attached instance: the content
changes, the pose does not. -/
theorem C8_cycle_wraparound (st : MainSt) (c : Nat)
    (hP : st.isPresenting = true) (hR : st.reticleVisible = false)
    (hc : st.currentModel = some c)
    (hl : nextMode st.currentMode ∉ st.loading)
    (hp : nextMode st.currentMode ∈ st.preloaded) :
    (onSelect st).currentMode = nextMode st.currentMode ∧
    nextMode st.currentMode = st.currentMode % 3 + 1 ∧
    (∃ j, (onSelect st).currentModel = some j ∧
          poseOf (onSelect st) j = poseOf st c) ∧
    nextMode (nextMode (nextMode 1)) = 1 ∧
    nextMode 1 ≠ 1 ∧ nextMode (nextMode 1) ≠ 1 := by
  have hsel : onSelect st
      = attachStart
          { st with currentMode := nextMode st.currentMode,
                    statusMsg := "Cambiando rutina..." }
          (poseOf { st with currentMode := nextMode st.currentMode,
                            statusMsg := "Cambiando rutina..." } c) := by
    unfold onSelect cycleMode
    rw [if_neg (by simp [hP]), if_neg (by simp [hR])]
    simp only [hc]
  have hca := attach_cached
    { st with currentMode := nextMode st.currentMode,
              statusMsg := "Cambiando rutina..." }
    (poseOf { st with currentMode := nextMode st.currentMode,
                      statusMsg := "Cambiando rutina..." } c)
    (by simpa using hl) (by simpa using hp)
  refine ⟨?_, rfl, ⟨st.nextInst, ?_, ?_⟩, by decide, by decide, by decide⟩
  · rw [hsel]
    exact hca.1
  · rw [hsel]
    exact hca.2.1
  · rw [hsel]
    exact hca.2.2

/-- Witness for C8 at a concrete state: instance 0 attached at `poseB`, all
modes preloaded. -/
theorem C8_witness :
    (onSelect w8).currentMode = nextMode w8.currentMode ∧
    nextMode (nextMode (nextMode 1)) = 1 :=
  ⟨(C8_cycle_wraparound w8 0 (by decide) (by decide) (by decide) (by decide)
      (by decide)).1,
   (C8_cycle_wraparound w8 0 (by decide) (by decide) (by decide) (by decide)
      (by decide)).2.2.2.1⟩

end ARApp

